import Mathlib

/-!
Shallow embedding of watertap_contrib/seto/solar_models/surrogate/flat_plate/
flat_plate_surrogate.py: the FlatPlateSurrogateData process block class
(methods build, calculate_scaling_factors, initialize_build).

The block is declarative glue over the pyomo/idaes framework: it declares
bounded variables with units and initial guesses, loads a pre-trained
surrogate artifact from a path beside the source file, binds it to input and
output variables, adds two unit-conversion equality constraints, and fills in
default scaling factors when absent.  We embed the block state, the build
procedure (with its stdout redirection and its single load_from_file call,
which may fail), the scaling-factor pass, and the no-op initialization hook.
-/

namespace FlatPlate

/-- The seven scalar variables a FlatPlateSurrogate block works with: the five
declared in build of this file plus heat and electricity from the base class
SolarEnergyBase. -/
inductive VarName where
  | heat_load
  | hours_storage
  | temperature_hot
  | heat_annual
  | electricity_annual
  | heat
  | electricity
deriving DecidableEq, Repr

/-- Physical units appearing in the Var declarations of build
(pyunits.MW, pyunits.hour, pyunits.C, pyunits.kWh). -/
inductive PUnits where
  | MW
  | hour
  | C
  | kWh
deriving DecidableEq, Repr

/-- A pyomo Var declaration as written in build: an initial guess, optional
lower and upper bounds, units, and a doc string. -/
structure VarDecl where
  init_val : ℚ
  lb : Option ℚ
  ub : Option ℚ
  units : PUnits
  doc : String
deriving DecidableEq, Repr

/-- heat_load = Var(initialize=1000, bounds=[100, 1000], units=pyunits.MW). -/
def heat_load_decl : VarDecl :=
  { init_val := 1000
    lb := some 100
    ub := some 1000
    units := PUnits.MW
    doc := "Rated plant heat capacity in MWt" }

/-- hours_storage = Var(initialize=20, bounds=[0, 26], units=pyunits.hour). -/
def hours_storage_decl : VarDecl :=
  { init_val := 20
    lb := some 0
    ub := some 26
    units := PUnits.hour
    doc := "Rated plant hours of storage" }

/-- temperature_hot = Var(initialize=70, bounds=[50, 100], units=pyunits.C). -/
def temperature_hot_decl : VarDecl :=
  { init_val := 70
    lb := some 50
    ub := some 100
    units := PUnits.C
    doc := "Hot outlet temperature" }

/-- heat_annual = Var(initialize=1000, units=pyunits.kWh), no bounds. -/
def heat_annual_decl : VarDecl :=
  { init_val := 1000
    lb := none
    ub := none
    units := PUnits.kWh
    doc := "Annual heat generated by flat plate" }

/-- electricity_annual = Var(initialize=20, units=pyunits.kWh), no bounds. -/
def electricity_annual_decl : VarDecl :=
  { init_val := 20
    lb := none
    ub := none
    units := PUnits.kWh
    doc := "Annual electricity consumed by flat plate" }

/-- The Var declarations made by build of this file, in source order,
with their attribute names. -/
def buildVarDecls : List (String × VarDecl) :=
  [("heat_load", heat_load_decl),
   ("hours_storage", hours_storage_decl),
   ("temperature_hot", temperature_hot_decl),
   ("heat_annual", heat_annual_decl),
   ("electricity_annual", electricity_annual_decl)]

/-- Modelled from the spec: the base class SolarEnergyBase (imported from
watertap_contrib.seto.core, not part of this repository snapshot) provides the
per-unit-time quantities heat and electricity used by the two conversion
constraints.  The spec names no other base-class variables. -/
def baseClassVarNames : List String :=
  ["heat", "electricity"]

/-- All variable names available on a constructed block: the five declared in
build of this file plus the base-class ones. -/
def allVarNames : List String :=
  buildVarDecls.map Prod.fst ++ baseClassVarNames

/-- Whether a declaration carries both a lower and an upper bound. -/
def hasBounds (d : VarDecl) : Bool :=
  d.lb.isSome && d.ub.isSome

/-- Whether x lies within the closed declared bounds of d (a missing bound is
no restriction). -/
def inBoundsB (d : VarDecl) (x : ℚ) : Bool :=
  d.lb.all (fun l => decide (l ≤ x)) && d.ub.all (fun u => decide (x ≤ u))

/-- Whether x lies strictly inside the declared bounds of d. -/
def strictlyInsideB (d : VarDecl) (x : ℚ) : Bool :=
  d.lb.all (fun l => decide (l < x)) && d.ub.all (fun u => decide (x < u))

/-- pyunits.convert(1 * pyunits.year, to_units=pyunits.hour): pyomo units are
pint units, whose year is the Julian year of 365.25 days, hence 8766 hours. -/
def hoursPerYear : ℚ := 8766

/-- A constraint of the shape written in build: lhs == rhs * factor
(heat_annual == heat * hours-per-year, and likewise for electricity). -/
structure LinConstraint where
  lhs : VarName
  rhs : VarName
  factor : ℚ
deriving DecidableEq, Repr

/-- An assignment of rational values to the block variables satisfies the
constraint lhs == rhs * factor. -/
def satisfies (sigma : VarName → ℚ) (c : LinConstraint) : Prop :=
  sigma c.lhs = sigma c.rhs * c.factor

instance (sigma : VarName → ℚ) (c : LinConstraint) :
    Decidable (satisfies sigma c) := by
  unfold satisfies
  infer_instance

/-- The loaded surrogate artifact, as returned by
PysmoSurrogate.load_from_file: opaque to this block, identified by its
content. -/
structure PysmoSurrogate where
  content : String
deriving DecidableEq, Repr

/-- Errors the framework load call can raise (missing file, malformed
surrogate content); build installs no handler for them. -/
inductive LoadError where
  | fileNotFound (path : String)
  | malformed (path : String)
deriving DecidableEq, Repr

/-- Where sys.stdout currently points: the process standard output or the
in-memory StringIO buffer created by build. -/
inductive StdoutTarget where
  | standard
  | buffer
deriving DecidableEq, Repr

/-- The global state build mutates besides the block itself: sys.stdout. -/
structure World where
  stdout : StdoutTarget
deriving DecidableEq, Repr

/-- The environment build runs in: the directory of the source file
(os.path.dirname of the module file), the current working directory of the
process, and the behaviour of the framework call
PysmoSurrogate.load_from_file on each path. -/
structure Env where
  fileDir : String
  cwd : String
  loadResult : String → Except LoadError PysmoSurrogate

/-- os.path.join of a directory with a relative path component. -/
def joinPath (a b : String) : String :=
  if a = "" then b else a ++ "/" ++ b

def surrogateFileName : String := "flat_plate_surrogate.json"

def datasetRelPath : String := "data/flat_plate_data.pkl"

/-- surrogate_file = os.path.join(os.path.dirname(file), "flat_plate_surrogate.json");
it depends only on the directory of the source file, never on the working
directory. -/
def surrogate_file_of (env : Env) : String :=
  joinPath env.fileDir surrogateFileName

/-- dataset_filename = os.path.join(os.path.dirname(file), "data/flat_plate_data.pkl"). -/
def dataset_filename_of (env : Env) : String :=
  joinPath env.fileDir datasetRelPath

/-- Observable framework effects of build that we track: each call of
PysmoSurrogate.load_from_file, with the path it was given. -/
inductive Event where
  | loadFromFile (path : String)
deriving DecidableEq, Repr

/-- The per-variable scaling-factor suffix restricted to the seven variables
calculate_scaling_factors touches; none means no scaling factor set. -/
structure ScalingMap where
  hours_storage : Option ℚ
  heat_load : Option ℚ
  temperature_hot : Option ℚ
  heat_annual : Option ℚ
  heat : Option ℚ
  electricity_annual : Option ℚ
  electricity : Option ℚ
deriving DecidableEq, Repr

/-- The empty suffix: no variable has a scaling factor. -/
def noScaling : ScalingMap :=
  { hours_storage := none
    heat_load := none
    temperature_hot := none
    heat_annual := none
    heat := none
    electricity_annual := none
    electricity := none }

/-- The state of a fully constructed FlatPlateSurrogate block: everything
build assigns to self. -/
structure FlatPlateState where
  tech_type : String
  heat_load : VarDecl
  hours_storage : VarDecl
  temperature_hot : VarDecl
  heat_annual : VarDecl
  electricity_annual : VarDecl
  surrogate_inputs : List VarName
  surrogate_outputs : List VarName
  input_labels : List String
  output_labels : List String
  surrogate_file : String
  surrogate : PysmoSurrogate
  heat_constraint : LinConstraint
  electricity_constraint : LinConstraint
  dataset_filename : String
  n_samples : ℕ
  training_fraction : ℚ
  scaling : ScalingMap
deriving DecidableEq, Repr

/-- The two equality constraints build adds to the block, in source order. -/
def blockConstraints (st : FlatPlateState) : List LinConstraint :=
  [st.heat_constraint, st.electricity_constraint]

/-- The block state build produces when the surrogate load returns srg. -/
def mkState (env : Env) (srg : PysmoSurrogate) : FlatPlateState :=
  { tech_type := "flat_plate"
    heat_load := heat_load_decl
    hours_storage := hours_storage_decl
    temperature_hot := temperature_hot_decl
    heat_annual := heat_annual_decl
    electricity_annual := electricity_annual_decl
    surrogate_inputs :=
      [VarName.heat_load, VarName.hours_storage, VarName.temperature_hot]
    surrogate_outputs := [VarName.heat_annual, VarName.electricity_annual]
    input_labels := ["heat_load", "hours_storage", "temperature_hot"]
    output_labels := ["heat_annual", "electricity_annual"]
    surrogate_file := surrogate_file_of env
    surrogate := srg
    heat_constraint :=
      { lhs := VarName.heat_annual
        rhs := VarName.heat
        factor := hoursPerYear }
    electricity_constraint :=
      { lhs := VarName.electricity_annual
        rhs := VarName.electricity
        factor := hoursPerYear }
    dataset_filename := dataset_filename_of env
    n_samples := 100
    training_fraction := 4/5
    scaling := noScaling }

/-- Everything build returns or leaves behind: the final global world, the
framework calls it made, and either the constructed block state or the
unhandled error that propagated out. -/
structure BuildResult where
  world : World
  events : List Event
  outcome : Except LoadError FlatPlateState

/-- build of FlatPlateSurrogateData.  It saves sys.stdout, points sys.stdout
at a fresh StringIO buffer, resolves the surrogate path beside the source
file, performs the single load_from_file call, and on success adds the two
conversion constraints and restores sys.stdout before setting
dataset_filename, n_samples and training_fraction.  On a load failure the
exception propagates out with sys.stdout still on the buffer. -/
def build (env : Env) (w : World) : BuildResult :=
  let oldstdout := w.stdout
  let redirected : World := { stdout := StdoutTarget.buffer }
  let file := surrogate_file_of env
  match env.loadResult file with
  | Except.error e =>
      { world := redirected
        events := [Event.loadFromFile file]
        outcome := Except.error e }
  | Except.ok srg =>
      { world := { stdout := oldstdout }
        events := [Event.loadFromFile file]
        outcome := Except.ok (mkState env srg) }

/-- Whether an Except result is the success case. -/
def exceptIsOk (r : Except LoadError PysmoSurrogate) : Bool :=
  match r with
  | Except.ok _ => true
  | Except.error _ => false

/-- A get_scaling_factor(v, default=d, warning=w) request issued by
calculate_scaling_factors for a variable that had no scaling factor. -/
structure SFRequest where
  var : VarName
  dval : ℚ
  warn : Bool
deriving DecidableEq, Repr

/-- calculate_scaling_factors of FlatPlateSurrogateData, with the requests it
issues recorded.  Each of its seven blocks runs only when the variable has no
scaling factor yet, asks iscale.get_scaling_factor with the written default
(and warning flag), and sets the result. -/
def calculate_scaling_factors_run (s0 : ScalingMap) : ScalingMap × List SFRequest :=
  let (s1, r1) :=
    if s0.hours_storage = none then
      ({ s0 with hours_storage := some (s0.hours_storage.getD 1) },
       [SFRequest.mk VarName.hours_storage 1 false])
    else (s0, [])
  let (s2, r2) :=
    if s1.heat_load = none then
      ({ s1 with heat_load := some (s1.heat_load.getD (1/100)) },
       [SFRequest.mk VarName.heat_load (1/100) true])
    else (s1, [])
  let (s3, r3) :=
    if s2.temperature_hot = none then
      ({ s2 with temperature_hot := some (s2.temperature_hot.getD (1/10)) },
       [SFRequest.mk VarName.temperature_hot (1/10) true])
    else (s2, [])
  let (s4, r4) :=
    if s3.heat_annual = none then
      ({ s3 with heat_annual := some (s3.heat_annual.getD (1/10000)) },
       [SFRequest.mk VarName.heat_annual (1/10000) true])
    else (s3, [])
  let (s5, r5) :=
    if s4.heat = none then
      ({ s4 with heat := some (s4.heat.getD (1/10000)) },
       [SFRequest.mk VarName.heat (1/10000) true])
    else (s4, [])
  let (s6, r6) :=
    if s5.electricity_annual = none then
      ({ s5 with electricity_annual := some (s5.electricity_annual.getD (1/1000)) },
       [SFRequest.mk VarName.electricity_annual (1/1000) true])
    else (s5, [])
  let (s7, r7) :=
    if s6.electricity = none then
      ({ s6 with electricity := some (s6.electricity.getD (1/1000)) },
       [SFRequest.mk VarName.electricity (1/1000) true])
    else (s6, [])
  (s7, r1 ++ r2 ++ r3 ++ r4 ++ r5 ++ r6 ++ r7)

/-- The scaling map after calculate_scaling_factors. -/
def calculate_scaling_factors (s : ScalingMap) : ScalingMap :=
  (calculate_scaling_factors_run s).1

/-- calculate_scaling_factors acting on a whole block: it touches only the
scaling-factor suffix. -/
def calculate_scaling_factors_blk (st : FlatPlateState) : FlatPlateState :=
  { st with scaling := calculate_scaling_factors st.scaling }

/-- Embeds the method initialize_build of FlatPlateSurrogateData: its body is
pass, so it returns None and leaves the block untouched. -/
def init_build (st : FlatPlateState) : Option Unit × FlatPlateState :=
  (none, st)

/-- The surrogate inputs of a block assignment lie within the declared closed
bounds of the three bounded input variables. -/
def inputsWithinBounds (st : FlatPlateState) (sigma : VarName → ℚ) : Bool :=
  inBoundsB st.heat_load (sigma VarName.heat_load) &&
  inBoundsB st.hours_storage (sigma VarName.hours_storage) &&
  inBoundsB st.temperature_hot (sigma VarName.temperature_hot)

end FlatPlate

namespace FlatPlate

theorem csf_fields (s : ScalingMap) :
    calculate_scaling_factors s =
      { hours_storage := some (s.hours_storage.getD 1)
        heat_load := some (s.heat_load.getD (1/100))
        temperature_hot := some (s.temperature_hot.getD (1/10))
        heat_annual := some (s.heat_annual.getD (1/10000))
        heat := some (s.heat.getD (1/10000))
        electricity_annual := some (s.electricity_annual.getD (1/1000))
        electricity := some (s.electricity.getD (1/1000)) } := by
  obtain ⟨f1, f2, f3, f4, f5, f6, f7⟩ := s
  cases f1 <;> cases f2 <;> cases f3 <;> cases f4 <;>
    cases f5 <;> cases f6 <;> cases f7 <;> rfl

end FlatPlate

namespace FlatPlate

theorem build_events (env : Env) (w : World) :
    (build env w).events = [Event.loadFromFile (surrogate_file_of env)] := by
  cases h : env.loadResult (surrogate_file_of env) <;> simp [build, h]

theorem build_outcome (env : Env) (w : World) :
    (build env w).outcome =
      Except.map (mkState env) (env.loadResult (surrogate_file_of env)) := by
  cases h : env.loadResult (surrogate_file_of env) <;>
    simp [build, h, Except.map]

/-- C5: build resolves the surrogate artifact path and the dataset path by
joining the directory of the source file with fixed relative names,
independently of the current working directory, and the single load event
build performs uses exactly that artifact path. -/
theorem C5_fixed_paths :
    (∀ fd c c' lr w,
      build { fileDir := fd, cwd := c, loadResult := lr } w =
        build { fileDir := fd, cwd := c', loadResult := lr } w) ∧
    (∀ env, surrogate_file_of env = joinPath env.fileDir surrogateFileName) ∧
    (∀ env srg,
      (mkState env srg).surrogate_file = surrogate_file_of env ∧
      (mkState env srg).dataset_filename = joinPath env.fileDir datasetRelPath) ∧
    (∀ env w, (build env w).events = [Event.loadFromFile (surrogate_file_of env)]) :=
  ⟨fun _ _ _ _ _ => rfl, fun _ => rfl, fun _ _ => ⟨rfl, rfl⟩, build_events⟩

/-- C6: build has no local handler: when the framework load call fails, build
exits with exactly that error, after having performed the load call. -/
theorem C6_load_error_propagates (env : Env) (w : World) (e : LoadError)
    (h : env.loadResult (surrogate_file_of env) = Except.error e) :
    (build env w).outcome = Except.error e ∧
    (build env w).events = [Event.loadFromFile (surrogate_file_of env)] := by
  refine ⟨?_, build_events env w⟩
  rw [build_outcome, h]
  rfl

def world0 : World := { stdout := StdoutTarget.standard }

def pathMissing : String := "/models/flat_plate/flat_plate_surrogate.json"

def envErr : Env :=
  { fileDir := "/models/flat_plate"
    cwd := "/work"
    loadResult := fun _ => Except.error (LoadError.fileNotFound pathMissing) }

theorem C6_load_error_propagates_witness :
    (build envErr world0).outcome =
      Except.error (LoadError.fileNotFound pathMissing) :=
  (C6_load_error_propagates envErr world0 (LoadError.fileNotFound pathMissing) rfl).1

/-- C7: the initialization hook is a no-op: it returns None and leaves the
whole block state unchanged. -/
theorem C7_init_hook_noop (st : FlatPlateState) :
    (init_build st).1 = none ∧ (init_build st).2 = st :=
  ⟨rfl, rfl⟩

/-- C8: build leaves sys.stdout on the original stream only when the
surrogate load succeeds; when the load fails, build exits with sys.stdout
still pointing at the in-memory buffer. -/
theorem C8_stdout_restore_not_atomic (env : Env) (w : World) :
    (build env w).world.stdout =
      (if exceptIsOk (env.loadResult (surrogate_file_of env)) then w.stdout
       else StdoutTarget.buffer) := by
  cases h : env.loadResult (surrogate_file_of env) <;>
    simp [build, h, exceptIsOk]

/-- C10: every bounded variable of build has its initial guess inside its
closed bounds: heat_load starts at 1000, exactly its upper bound;
hours_storage starts at 20, strictly inside [0, 26]; temperature_hot starts
at 70, strictly inside [50, 100]. -/
theorem C10_initial_guesses_within_bounds :
    (inBoundsB heat_load_decl heat_load_decl.init_val = true ∧
     heat_load_decl.init_val = 1000 ∧
     heat_load_decl.ub = some heat_load_decl.init_val ∧
     heat_load_decl.lb = some 100) ∧
    (inBoundsB hours_storage_decl hours_storage_decl.init_val = true ∧
     hours_storage_decl.init_val = 20 ∧
     strictlyInsideB hours_storage_decl hours_storage_decl.init_val = true ∧
     hours_storage_decl.lb = some 0 ∧ hours_storage_decl.ub = some 26) ∧
    (inBoundsB temperature_hot_decl temperature_hot_decl.init_val = true ∧
     temperature_hot_decl.init_val = 70 ∧
     strictlyInsideB temperature_hot_decl temperature_hot_decl.init_val = true ∧
     temperature_hot_decl.lb = some 50 ∧ temperature_hot_decl.ub = some 100) := by
  decide

end FlatPlate

namespace FlatPlate

/-- C1: on every successful build, the block carries exactly two equality
constraints, heat_annual == heat * hoursPerYear and electricity_annual ==
electricity * hoursPerYear, and any assignment whose inputs respect the
variable bounds and which satisfies those constraints has the per-unit-time
quantities times the year-to-hour factor equal to the annual variables. -/
theorem C1_annual_constraints (env : Env) (w : World) (st : FlatPlateState)
    (sigma : VarName → ℚ)
    (hok : (build env w).outcome = Except.ok st)
    (hb : inputsWithinBounds st sigma = true)
    (hc : ∀ c ∈ blockConstraints st, satisfies sigma c) :
    (blockConstraints st).length = 2 ∧
    st.heat_constraint =
      { lhs := VarName.heat_annual, rhs := VarName.heat, factor := hoursPerYear } ∧
    st.electricity_constraint =
      { lhs := VarName.electricity_annual, rhs := VarName.electricity,
        factor := hoursPerYear } ∧
    sigma VarName.heat * hoursPerYear = sigma VarName.heat_annual ∧
    sigma VarName.electricity * hoursPerYear = sigma VarName.electricity_annual := by
  rw [build_outcome] at hok
  obtain ⟨srg, rfl⟩ : ∃ srg, st = mkState env srg := by
    cases h : env.loadResult (surrogate_file_of env) with
    | error e => rw [h] at hok; exact absurd hok (by simp [Except.map])
    | ok srg =>
        rw [h] at hok
        simp [Except.map] at hok
        exact ⟨srg, hok.symm⟩
  have h1 := hc (mkState env srg).heat_constraint (by simp [blockConstraints])
  have h2 := hc (mkState env srg).electricity_constraint (by simp [blockConstraints])
  simp only [satisfies, mkState] at h1 h2
  exact ⟨rfl, rfl, rfl, h1.symm, h2.symm⟩

def env0 : Env :=
  { fileDir := "/models/flat_plate"
    cwd := "/work"
    loadResult := fun _ => Except.ok { content := "artifact" } }

def srg0 : PysmoSurrogate := { content := "artifact" }

def sigma0 : VarName → ℚ := fun v =>
  match v with
  | VarName.heat_load => 100
  | VarName.hours_storage => 0
  | VarName.temperature_hot => 50
  | VarName.heat_annual => 8766
  | VarName.electricity_annual => 8766
  | VarName.heat => 1
  | VarName.electricity => 1

theorem C1_annual_constraints_witness :
    (blockConstraints (mkState env0 srg0)).length = 2 ∧
    (mkState env0 srg0).heat_constraint =
      { lhs := VarName.heat_annual, rhs := VarName.heat, factor := hoursPerYear } ∧
    (mkState env0 srg0).electricity_constraint =
      { lhs := VarName.electricity_annual, rhs := VarName.electricity,
        factor := hoursPerYear } ∧
    sigma0 VarName.heat * hoursPerYear = sigma0 VarName.heat_annual ∧
    sigma0 VarName.electricity * hoursPerYear = sigma0 VarName.electricity_annual :=
  C1_annual_constraints env0 world0 (mkState env0 srg0) sigma0 rfl
    (by
      norm_num [inputsWithinBounds, inBoundsB, mkState, heat_load_decl,
        hours_storage_decl, temperature_hot_decl, sigma0, Option.all])
    (by
      intro c hm
      simp only [blockConstraints, mkState, List.mem_cons, List.mem_singleton,
        List.not_mem_nil, or_false] at hm
      rcases hm with rfl | rfl <;>
        norm_num [satisfies, sigma0, hoursPerYear])

/-- C2: for each of the seven variables it touches, calculate_scaling_factors
leaves an already-set scaling factor unchanged and fills in the written
default exactly when the factor was absent (the getD form covers both cases),
and the pass is idempotent: a second call changes nothing. -/
theorem C2_scaling_set_once_idempotent (s : ScalingMap) :
    ((calculate_scaling_factors s).hours_storage = some (s.hours_storage.getD 1) ∧
     (calculate_scaling_factors s).heat_load = some (s.heat_load.getD (1/100)) ∧
     (calculate_scaling_factors s).temperature_hot =
       some (s.temperature_hot.getD (1/10)) ∧
     (calculate_scaling_factors s).heat_annual =
       some (s.heat_annual.getD (1/10000)) ∧
     (calculate_scaling_factors s).heat = some (s.heat.getD (1/10000)) ∧
     (calculate_scaling_factors s).electricity_annual =
       some (s.electricity_annual.getD (1/1000)) ∧
     (calculate_scaling_factors s).electricity =
       some (s.electricity.getD (1/1000))) ∧
    calculate_scaling_factors (calculate_scaling_factors s) =
      calculate_scaling_factors s := by
  constructor
  · rw [csf_fields]
    exact ⟨rfl, rfl, rfl, rfl, rfl, rfl, rfl⟩
  · rw [csf_fields s, csf_fields]
    simp

/-- C3: build performs exactly one load_from_file call, the constructed block
holds exactly the loaded artifact, and neither the scaling-factor pass nor
the initialization hook ever changes the surrogate attribute. -/
theorem C3_surrogate_loaded_once_immutable :
    (∀ env w, (build env w).events = [Event.loadFromFile (surrogate_file_of env)]) ∧
    (∀ env srg, (mkState env srg).surrogate = srg) ∧
    (∀ st, (calculate_scaling_factors_blk st).surrogate = st.surrogate) ∧
    (∀ st, (init_build st).2.surrogate = st.surrogate) :=
  ⟨build_events, fun _ _ => rfl, fun _ => rfl, fun _ => rfl⟩

/-- C9: on variables with no scaling factor, calculate_scaling_factors
requests and sets exactly the defaults 1 (hours_storage, no warning flag),
1e-2 (heat_load), 1e-1 (temperature_hot), 1e-4 (heat_annual and heat) and
1e-3 (electricity_annual and electricity), the last six with warning=True;
in general each absent factor receives exactly its written default. -/
theorem C9_scaling_defaults :
    calculate_scaling_factors_run noScaling =
      ({ hours_storage := some 1
         heat_load := some (1/100)
         temperature_hot := some (1/10)
         heat_annual := some (1/10000)
         heat := some (1/10000)
         electricity_annual := some (1/1000)
         electricity := some (1/1000) },
       [{ var := VarName.hours_storage, dval := 1, warn := false },
        { var := VarName.heat_load, dval := 1/100, warn := true },
        { var := VarName.temperature_hot, dval := 1/10, warn := true },
        { var := VarName.heat_annual, dval := 1/10000, warn := true },
        { var := VarName.heat, dval := 1/10000, warn := true },
        { var := VarName.electricity_annual, dval := 1/1000, warn := true },
        { var := VarName.electricity, dval := 1/1000, warn := true }]) ∧
    (∀ s : ScalingMap, calculate_scaling_factors s =
      { hours_storage := some (s.hours_storage.getD 1)
        heat_load := some (s.heat_load.getD (1/100))
        temperature_hot := some (s.temperature_hot.getD (1/10))
        heat_annual := some (s.heat_annual.getD (1/10000))
        heat := some (s.heat.getD (1/10000))
        electricity_annual := some (s.electricity_annual.getD (1/1000))
        electricity := some (s.electricity.getD (1/1000)) }) :=
  ⟨by rfl, csf_fields⟩

end FlatPlate

namespace FlatPlate

/-- C4 counterexample: only three of the declared variables are bounded, not
six, and the block has seven variables in all (five declared in this file
plus base-class heat and electricity), not six bounded ones plus two annual
ones. -/
theorem C4_counterexample :
    (buildVarDecls.filter (fun p => hasBounds p.2)).length = 3 ∧
    (buildVarDecls.filter (fun p => hasBounds p.2)).length ≠ 6 ∧
    allVarNames.length = 7 ∧
    allVarNames.length ≠ 6 + 2 := by
  refine ⟨rfl, ?_, rfl, ?_⟩ <;> decide

/-- C4 (amended): build declares exactly the five variables heat_load,
hours_storage, temperature_hot, heat_annual and electricity_annual; the
first three are bounded, with units and initial guesses as written
(heat_load in [100, 1000] MW starting at 1000, hours_storage in [0, 26] hour
starting at 20, temperature_hot in [50, 100] C starting at 70); the two
annual output variables carry kWh units, no bounds, and are bound to the
surrogate as its outputs; with the base-class heat and electricity the block
has seven variables. -/
theorem C4_amended_variables :
    (buildVarDecls.map Prod.fst =
      ["heat_load", "hours_storage", "temperature_hot",
       "heat_annual", "electricity_annual"] ∧
     heat_load_decl.lb = some 100 ∧ heat_load_decl.ub = some 1000 ∧
     heat_load_decl.units = PUnits.MW ∧ heat_load_decl.init_val = 1000 ∧
     hours_storage_decl.lb = some 0 ∧ hours_storage_decl.ub = some 26 ∧
     hours_storage_decl.units = PUnits.hour ∧
     hours_storage_decl.init_val = 20 ∧
     temperature_hot_decl.lb = some 50 ∧ temperature_hot_decl.ub = some 100 ∧
     temperature_hot_decl.units = PUnits.C ∧
     temperature_hot_decl.init_val = 70 ∧
     heat_annual_decl.units = PUnits.kWh ∧
     electricity_annual_decl.units = PUnits.kWh ∧
     heat_annual_decl.lb = none ∧ heat_annual_decl.ub = none ∧
     electricity_annual_decl.lb = none ∧ electricity_annual_decl.ub = none) ∧
    (∀ env srg,
      (mkState env srg).surrogate_outputs =
        [VarName.heat_annual, VarName.electricity_annual] ∧
      (mkState env srg).surrogate_inputs =
        [VarName.heat_load, VarName.hours_storage, VarName.temperature_hot] ∧
      (mkState env srg).heat_load = heat_load_decl ∧
      (mkState env srg).hours_storage = hours_storage_decl ∧
      (mkState env srg).temperature_hot = temperature_hot_decl ∧
      (mkState env srg).heat_annual = heat_annual_decl ∧
      (mkState env srg).electricity_annual = electricity_annual_decl) ∧
    allVarNames.length = 7 :=
  ⟨⟨rfl, rfl, rfl, rfl, rfl, rfl, rfl, rfl, rfl, rfl,
    rfl, rfl, rfl, rfl, rfl, rfl, rfl, rfl, rfl⟩,
   fun _ _ => ⟨rfl, rfl, rfl, rfl, rfl, rfl, rfl⟩, rfl⟩

end FlatPlate
